import Mathlib

/-!
Verification of the libbiomeval PNG adapter (`be_image_png.cpp`) and the
LogSheet/LogCabinet logging utilities (`be_io_logcabinet.h`), as a shallow
embedding in Lean 4.  Machine buffers are `List Nat` (byte values), the
floating-point resolution arithmetic is embedded over `ℚ`, and the external
libpng codec is modelled abstractly where the adapter merely forwards to it.
-/

namespace LibBiomeval

/-! ### Constants from png.h used by the adapter -/

/-- PNG_COLOR_MASK_PALETTE from png.h. -/
def PNG_COLOR_MASK_PALETTE : Nat := 1

/-- PNG_COLOR_MASK_COLOR from png.h. -/
def PNG_COLOR_MASK_COLOR : Nat := 2

/-- PNG_COLOR_MASK_ALPHA from png.h. -/
def PNG_COLOR_MASK_ALPHA : Nat := 4

/-- PNG_COLOR_TYPE_GRAY from png.h. -/
def PNG_COLOR_TYPE_GRAY : Nat := 0

/-- PNG_COLOR_TYPE_PALETTE from png.h: COLOR mask together with PALETTE mask. -/
def PNG_COLOR_TYPE_PALETTE : Nat := 3

/-- PNG_RESOLUTION_UNKNOWN from png.h. -/
def PNG_RESOLUTION_UNKNOWN : Int := 0

/-- PNG_RESOLUTION_METER from png.h. -/
def PNG_RESOLUTION_METER : Int := 1

/-- PNG_RESOLUTION_LAST from png.h. -/
def PNG_RESOLUTION_LAST : Int := 2

/-! ### Image data model -/

/-- Units of the Image::Resolution value, from the image framework. -/
inductive ResolutionUnits where
  | PPI
  | PPMM
  | PPCM
deriving DecidableEq, Repr

/-- Image::Resolution: a per-axis resolution value with a unit.  The C++
double components are embedded as rationals. -/
structure Resolution where
  xRes : ℚ
  yRes : ℚ
  units : ResolutionUnits
deriving DecidableEq, Repr

/-- The PNG header fields the adapter reads from libpng after
`png_read_info`: bit depth, channel count, color type, dimensions, whether a
tRNS chunk is valid, and the optional pHYs physical-resolution chunk
(x-resolution, y-resolution, unit type). -/
structure PNGHeader where
  bitDepth : Nat
  channels : Nat
  colorTypeField : Nat
  width : Nat
  height : Nat
  hasTRNS : Bool
  pHYs : Option (Nat × Nat × Int)
deriving DecidableEq, Repr

/-- The color depth first computed by the PNG constructor:
`pngBitDepth * png_get_channels(...)` (be_image_png.cpp line 117). -/
def pngComputedDepth (h : PNGHeader) : Nat := h.bitDepth * h.channels

/-- The color depth the PNG constructor finally reports: the computed depth,
coerced to 24 when it is at most 8 and the color type has the palette mask
set (be_image_png.cpp lines 116-128). -/
def pngReportedColorDepth (h : PNGHeader) : Nat :=
  if pngComputedDepth h ≤ 8 ∧
      (h.colorTypeField &&& PNG_COLOR_MASK_PALETTE) = PNG_COLOR_MASK_PALETTE then
    24
  else
    pngComputedDepth h

/-- The resolution the PNG constructor reports from the pHYs chunk
(be_image_png.cpp lines 134-164): meters becomes value/100 in PPCM, any
other unit becomes 0x0 PPCM, and an absent chunk defaults to 72x72 PPI. -/
def pngConstructorResolution (h : PNGHeader) : Resolution :=
  match h.pHYs with
  | some (xres, yres, t) =>
      if t = PNG_RESOLUTION_METER then
        ⟨(xres : ℚ) / 100, (yres : ℚ) / 100, ResolutionUnits.PPCM⟩
      else
        ⟨0, 0, ResolutionUnits.PPCM⟩
  | none => ⟨72, 72, ResolutionUnits.PPI⟩

/-! ### isPNG (be_image_png.cpp lines 263-275) -/

/-- The fixed 8-byte PNG file signature that `png_sig_cmp` compares
against. -/
def pngSignatureBytes : List Nat := [137, 80, 78, 71, 13, 10, 26, 10]

/-- PNG::isPNG: false when `size <= 8`, otherwise true exactly when the
leading 8 bytes of the buffer equal the PNG signature
(be_image_png.cpp lines 263-275). -/
def isPNG (data : List Nat) (size : Nat) : Bool :=
  if size ≤ 8 then false
  else if data.take 8 = pngSignatureBytes then true else false

/-! ### Theorems for claims C2, C3, C4 -/

/-- Claim C2: for a successfully parsed header, a pHYs chunk in meters yields
the stored values divided by 100 in pixels-per-centimeter; a pHYs chunk with
any other unit yields 0x0 pixels-per-centimeter; no pHYs chunk yields 72x72
pixels-per-inch; and 3937 units per axis in meters yields exactly 39.37
pixels-per-centimeter on each axis. -/
theorem C2_constructor_resolution (h : PNGHeader) :
    (∀ x y, h.pHYs = some (x, y, PNG_RESOLUTION_METER) →
        pngConstructorResolution h =
          ⟨(x : ℚ) / 100, (y : ℚ) / 100, ResolutionUnits.PPCM⟩) ∧
    (∀ x y t, h.pHYs = some (x, y, t) → t ≠ PNG_RESOLUTION_METER →
        pngConstructorResolution h = ⟨0, 0, ResolutionUnits.PPCM⟩) ∧
    (h.pHYs = none →
        pngConstructorResolution h = ⟨72, 72, ResolutionUnits.PPI⟩) ∧
    (h.pHYs = some (3937, 3937, PNG_RESOLUTION_METER) →
        pngConstructorResolution h =
          ⟨39.37, 39.37, ResolutionUnits.PPCM⟩) := by
  refine ⟨?_, ?_, ?_, ?_⟩
  · intro x y hx
    simp [pngConstructorResolution, hx]
  · intro x y t hx ht
    simp [pngConstructorResolution, hx, ht]
  · intro hx
    simp [pngConstructorResolution, hx]
  · intro hx
    simp only [pngConstructorResolution, hx]
    norm_num

/-- Witness for C2 at concrete headers: a meters pHYs chunk at 3937, and an
absent pHYs chunk. -/
theorem C2_constructor_resolution_witness :
    pngConstructorResolution
        ⟨8, 1, 0, 1, 1, false, some (3937, 3937, PNG_RESOLUTION_METER)⟩ =
      ⟨39.37, 39.37, ResolutionUnits.PPCM⟩ ∧
    pngConstructorResolution ⟨8, 1, 0, 1, 1, false, none⟩ =
      ⟨72, 72, ResolutionUnits.PPI⟩ :=
  ⟨(C2_constructor_resolution
      ⟨8, 1, 0, 1, 1, false, some (3937, 3937, PNG_RESOLUTION_METER)⟩).2.2.2 rfl,
   (C2_constructor_resolution ⟨8, 1, 0, 1, 1, false, none⟩).2.2.1 rfl⟩

/-- Claim C3: the constructor reports color depth as bit depth times channel
count, except that when the color type has the palette mask set and the
computed depth is at most 8, the reported depth is exactly 24. -/
theorem C3_color_depth (h : PNGHeader) :
    ((h.colorTypeField &&& PNG_COLOR_MASK_PALETTE) = PNG_COLOR_MASK_PALETTE →
        h.bitDepth * h.channels ≤ 8 →
        pngReportedColorDepth h = 24) ∧
    (¬ ((h.colorTypeField &&& PNG_COLOR_MASK_PALETTE) = PNG_COLOR_MASK_PALETTE ∧
          h.bitDepth * h.channels ≤ 8) →
        pngReportedColorDepth h = h.bitDepth * h.channels) := by
  constructor
  · intro hmask hdepth
    simp [pngReportedColorDepth, pngComputedDepth, hmask, hdepth]
  · intro hnot
    rw [pngReportedColorDepth, if_neg]
    · rfl
    · intro hcontra
      exact hnot ⟨hcontra.2, hcontra.1⟩

/-- Witness for C3: a 4-bit palette image reports depth 24, and an 8-bit
3-channel RGB image reports depth 24 as computed. -/
theorem C3_color_depth_witness :
    pngReportedColorDepth ⟨4, 1, 3, 1, 1, false, none⟩ = 24 ∧
    pngReportedColorDepth ⟨8, 3, 2, 1, 1, false, none⟩ = 8 * 3 :=
  ⟨(C3_color_depth ⟨4, 1, 3, 1, 1, false, none⟩).1 (by decide) (by decide),
   (C3_color_depth ⟨8, 3, 2, 1, 1, false, none⟩).2 (by decide)⟩

/-- Claim C4: isPNG is a pure (total) predicate that returns false for every
buffer of length at most 8, false for every 8-byte buffer, and true for
every buffer that is the 8-byte PNG signature followed by at least one
byte. -/
theorem C4_isPNG (data : List Nat) (size : Nat) :
    (size ≤ 8 → isPNG data size = false) ∧
    (size = 8 → isPNG data size = false) ∧
    (∀ rest : List Nat, data = pngSignatureBytes ++ rest → rest ≠ [] →
        size = data.length → isPNG data size = true) := by
  refine ⟨?_, ?_, ?_⟩
  · intro hle
    simp [isPNG, hle]
  · intro h8
    simp [isPNG, h8]
  · intro rest hdata hne hsize
    have hlen : data.length = 8 + rest.length := by
      simp [hdata, pngSignatureBytes]
      omega
    have hgt : ¬ size ≤ 8 := by
      have : 0 < rest.length := List.length_pos.mpr hne
      omega
    have htake : data.take 8 = pngSignatureBytes := by
      simp [hdata, pngSignatureBytes]
    simp [isPNG, hgt, htake]

/-- Witness for C4 at concrete buffers: the bare 8-byte signature is
rejected, and signature plus one byte is accepted. -/
theorem C4_isPNG_witness :
    isPNG pngSignatureBytes 8 = false ∧
    isPNG (pngSignatureBytes ++ [0]) 9 = true :=
  ⟨(C4_isPNG pngSignatureBytes 8).2.1 rfl,
   (C4_isPNG (pngSignatureBytes ++ [0]) 9).2.2 [0] rfl (by decide) (by decide)⟩

/-! ### getRawData transformation pipeline (be_image_png.cpp lines 185-253) -/

/-- The libpng operations getRawData can request on the codec session, in
the order the source requests them. -/
inductive PngOp where
  | setSwap
  | expandGray124To8
  | paletteToRgb
  | trnsToAlpha
  | updateInfo
deriving DecidableEq, Repr

/-- Position of an operation in the fixed order getRawData issues them. -/
def pngOpIndex : PngOp → Nat
  | PngOp.setSwap => 0
  | PngOp.expandGray124To8 => 1
  | PngOp.paletteToRgb => 2
  | PngOp.trnsToAlpha => 3
  | PngOp.updateInfo => 4

/-- The runtime condition under which getRawData requests the byte-order
swap: bit depth over 8 on a little-endian host (be_image_png.cpp line 209). -/
def swapCond (h : PNGHeader) (isLittleEndian : Bool) : Bool :=
  decide (8 < h.bitDepth) && isLittleEndian

/-- The runtime condition for expanding sub-byte grayscale
(be_image_png.cpp line 216). -/
def grayCond (h : PNGHeader) : Bool :=
  decide (h.colorTypeField = PNG_COLOR_TYPE_GRAY) && decide (h.bitDepth < 8)

/-- The runtime condition for expanding palette-indexed color
(be_image_png.cpp line 222). -/
def palCond (h : PNGHeader) : Bool :=
  decide (h.colorTypeField = PNG_COLOR_TYPE_PALETTE)

/-- The runtime condition for expanding a tRNS chunk into an alpha channel
(be_image_png.cpp line 228). -/
def trnsCond (h : PNGHeader) : Bool := h.hasTRNS

/-- The sequence of codec operations getRawData issues for a header `h` on a
host whose little-endianness is `isLittleEndian`, mirroring
be_image_png.cpp lines 207-238: the byte swap is requested without touching
`didTransformations`; each of the three expansions sets
`didTransformations`; `png_read_update_info` runs only when that flag is
set. -/
def getRawDataOps (h : PNGHeader) (isLittleEndian : Bool) : List PngOp :=
  let ops : List PngOp := []
  let ops := if swapCond h isLittleEndian then ops ++ [PngOp.setSwap] else ops
  let didTransformations := false
  let s1 := if grayCond h
    then (ops ++ [PngOp.expandGray124To8], true) else (ops, didTransformations)
  let s2 := if palCond h then (s1.1 ++ [PngOp.paletteToRgb], true) else s1
  let s3 := if trnsCond h then (s2.1 ++ [PngOp.trnsToAlpha], true) else s2
  if s3.2 then s3.1 ++ [PngOp.updateInfo] else s3.1

/-- getRawDataOps unfolded to an append of conditional singletons. -/
theorem getRawDataOps_eq (h : PNGHeader) (isLittleEndian : Bool) :
    getRawDataOps h isLittleEndian =
      (if swapCond h isLittleEndian then [PngOp.setSwap] else []) ++
      (if grayCond h then [PngOp.expandGray124To8] else []) ++
      (if palCond h then [PngOp.paletteToRgb] else []) ++
      (if trnsCond h then [PngOp.trnsToAlpha] else []) ++
      (if grayCond h || palCond h || trnsCond h
        then [PngOp.updateInfo] else []) := by
  cases c1 : swapCond h isLittleEndian <;>
    cases c2 : grayCond h <;>
      cases c3 : palCond h <;>
        cases c4 : trnsCond h <;>
          simp [getRawDataOps, c1, c2, c3, c4]

/-- Claim C1 as stated, at one concrete input, is false: for a 16-bit
3-channel RGB image on a little-endian host with no tRNS chunk, the byte
swap fires (bit depth exceeds 8) yet `png_read_update_info` is never
called, because the source sets `didTransformations` only for the three
expansion transformations. -/
theorem C1_counterexample :
    ¬ (PngOp.updateInfo ∈
          getRawDataOps ⟨16, 3, 2, 4, 4, false, none⟩ true ↔
        ((8 < (⟨16, 3, 2, 4, 4, false, none⟩ : PNGHeader).bitDepth ∧
            (true : Bool) = true) ∨
          ((⟨16, 3, 2, 4, 4, false, none⟩ : PNGHeader).colorTypeField =
              PNG_COLOR_TYPE_GRAY ∧
            (⟨16, 3, 2, 4, 4, false, none⟩ : PNGHeader).bitDepth < 8) ∨
          (⟨16, 3, 2, 4, 4, false, none⟩ : PNGHeader).colorTypeField =
            PNG_COLOR_TYPE_PALETTE ∨
          (⟨16, 3, 2, 4, 4, false, none⟩ : PNGHeader).hasTRNS = true)) := by
  decide

/-- Claim C1 amended: getRawData issues the conditional operations in the
fixed source order (swap, gray expansion, palette expansion, tRNS
expansion, update-info), calls update-info at most once per decode session,
and calls it exactly when at least one of the three expansion
transformations fired — the byte-order swap alone does not trigger the
header re-read. -/
theorem C1_transform_pipeline (h : PNGHeader) (isLittleEndian : Bool) :
    List.Pairwise (fun a b => pngOpIndex a < pngOpIndex b)
      (getRawDataOps h isLittleEndian) ∧
    (getRawDataOps h isLittleEndian).count PngOp.updateInfo ≤ 1 ∧
    (PngOp.setSwap ∈ getRawDataOps h isLittleEndian ↔
      (8 < h.bitDepth ∧ isLittleEndian = true)) ∧
    (PngOp.expandGray124To8 ∈ getRawDataOps h isLittleEndian ↔
      (h.colorTypeField = PNG_COLOR_TYPE_GRAY ∧ h.bitDepth < 8)) ∧
    (PngOp.paletteToRgb ∈ getRawDataOps h isLittleEndian ↔
      h.colorTypeField = PNG_COLOR_TYPE_PALETTE) ∧
    (PngOp.trnsToAlpha ∈ getRawDataOps h isLittleEndian ↔
      h.hasTRNS = true) ∧
    (PngOp.updateInfo ∈ getRawDataOps h isLittleEndian ↔
      ((h.colorTypeField = PNG_COLOR_TYPE_GRAY ∧ h.bitDepth < 8) ∨
        h.colorTypeField = PNG_COLOR_TYPE_PALETTE ∨ h.hasTRNS = true)) := by
  have hsw : swapCond h isLittleEndian = true ↔
      (8 < h.bitDepth ∧ isLittleEndian = true) := by
    simp [swapCond]
  have hgr : grayCond h = true ↔
      (h.colorTypeField = PNG_COLOR_TYPE_GRAY ∧ h.bitDepth < 8) := by
    simp [grayCond]
  have hpa : palCond h = true ↔ h.colorTypeField = PNG_COLOR_TYPE_PALETTE := by
    simp [palCond]
  have htr : trnsCond h = true ↔ h.hasTRNS = true := by
    simp [trnsCond]
  rw [← hsw, ← hgr, ← hpa, ← htr, getRawDataOps_eq]
  cases c1 : swapCond h isLittleEndian <;>
    cases c2 : grayCond h <;>
      cases c3 : palCond h <;>
        cases c4 : trnsCond h <;>
          refine ⟨by simp [c1, c2, c3, c4] <;> decide, by simp [c1, c2, c3, c4],
            ?_, ?_, ?_, ?_, ?_⟩ <;> simp [c1, c2, c3, c4]

/-- Witness for C1 at a concrete header: a 4-bit palette image on a
big-endian host fires the palette expansion and therefore the update-info
call. -/
theorem C1_transform_pipeline_witness :
    PngOp.updateInfo ∈ getRawDataOps ⟨4, 1, 3, 1, 1, false, none⟩ false ∧
    PngOp.paletteToRgb ∈ getRawDataOps ⟨4, 1, 3, 1, 1, false, none⟩ false :=
  ⟨(C1_transform_pipeline ⟨4, 1, 3, 1, 1, false, none⟩ false).2.2.2.2.2.2.mpr
      (Or.inr (Or.inl (by decide))),
   (C1_transform_pipeline ⟨4, 1, 3, 1, 1, false, none⟩ false).2.2.2.2.1.mpr
      (by decide)⟩

/-! ### png_read_mem_src (be_image_png.cpp lines 277-299) -/

/-- The libbiomeval error taxonomy used by these components. -/
inductive BEError where
  | ObjectExists
  | ObjectDoesNotExist
  | StrategyError (msg : String)
deriving DecidableEq, Repr

/-- The png_buffer struct of be_image_png.cpp: encoded data, its size, and
the number of bytes libpng has read so far. -/
structure PngBuffer where
  data : List Nat
  size : Nat
  offset : Nat
deriving DecidableEq, Repr

/-- png_read_mem_src (be_image_png.cpp lines 277-299): fails when the I/O
pointer is lost or when more bytes are requested than remain past the
current offset; otherwise copies `length` bytes from the offset and
advances the offset by `length`. -/
def png_read_mem_src (ioPtr : Option PngBuffer) (length : Nat) :
    Except BEError (List Nat × PngBuffer) :=
  match ioPtr with
  | none =>
      Except.error
        (BEError.StrategyError "Lost current offset while reading from memory")
  | some input =>
      if input.size - input.offset < length then
        Except.error
          (BEError.StrategyError "Attempted to read more data than available")
      else
        Except.ok ((input.data.drop input.offset).take length,
          { input with offset := input.offset + length })

/-- Claim C7: the read-from-memory shim raises StrategyError when the I/O
pointer is lost or the request exceeds the remaining bytes, and otherwise
copies exactly the requested bytes from the current offset and advances the
offset by that amount, keeping the offset within the buffer size. -/
theorem C7_read_mem_src (buf : PngBuffer) (length : Nat)
    (hsz : buf.size = buf.data.length) (hoff : buf.offset ≤ buf.size) :
    (∀ n, png_read_mem_src none n =
      Except.error
        (BEError.StrategyError "Lost current offset while reading from memory")) ∧
    (buf.size - buf.offset < length →
      png_read_mem_src (some buf) length =
        Except.error
          (BEError.StrategyError "Attempted to read more data than available")) ∧
    (length ≤ buf.size - buf.offset →
      png_read_mem_src (some buf) length =
        Except.ok ((buf.data.drop buf.offset).take length,
          { buf with offset := buf.offset + length }) ∧
      ((buf.data.drop buf.offset).take length).length = length ∧
      buf.offset + length ≤ buf.size) := by
  refine ⟨fun n => rfl, ?_, ?_⟩
  · intro hlt
    simp [png_read_mem_src, hlt]
  · intro hle
    have hnot : ¬ buf.size - buf.offset < length := by omega
    refine ⟨by simp [png_read_mem_src, hnot], ?_, by omega⟩
    have : length ≤ buf.data.length - buf.offset := by omega
    simp [List.length_take, List.length_drop]
    omega

/-- Witness for C7: a 4-byte buffer at offset 1 serving a 2-byte request,
and refusing a 9-byte request. -/
theorem C7_read_mem_src_witness :
    png_read_mem_src (some ⟨[10, 20, 30, 40], 4, 1⟩) 2 =
      Except.ok ([20, 30], ⟨[10, 20, 30, 40], 4, 3⟩) ∧
    png_read_mem_src (some ⟨[10, 20, 30, 40], 4, 1⟩) 9 =
      Except.error
        (BEError.StrategyError "Attempted to read more data than available") := by
  have h := C7_read_mem_src ⟨[10, 20, 30, 40], 4, 1⟩ 2 rfl (by decide)
  have h9 := C7_read_mem_src ⟨[10, 20, 30, 40], 4, 1⟩ 9 rfl (by decide)
  exact ⟨(h.2.2 (by decide)).1, h9.2.1 (by decide)⟩

/-! ### getRawData buffer construction (be_image_png.cpp lines 240-252) -/

/-- The adapter state visible to getRawData: the stored encoded data, the
header fields cached by the constructor, and the adapter's identifier. -/
structure PNGAdapter where
  data : List Nat
  header : PNGHeader
  identifier : String
deriving DecidableEq, Repr

/-- One `row_pointers[row] = rawData + row * rowbytes` write target: the
row's bytes replace the slice of the buffer starting at `off`
(be_image_png.cpp lines 247-248). -/
def writeRowAt (buf : List Nat) (off : Nat) (row : List Nat) : List Nat :=
  buf.take off ++ row ++ buf.drop (off + row.length)

/-- `png_read_image` writing the first `n` decoded rows into the buffer at
stride `rowbytes` (be_image_png.cpp lines 247-249). -/
def writeRows (rowbytes : Nat) (rows : Nat → List Nat) :
    Nat → List Nat → List Nat
  | 0, buf => buf
  | Nat.succ n, buf =>
      writeRowAt (writeRows rowbytes rows n buf) (n * rowbytes) (rows n)

/-- PNG::getRawData as a pure function of the adapter state and the codec's
decode result: the codec, queried on the stored data, reports the
post-transformation row stride and the decoded rows; the adapter allocates
`rowbytes * height` bytes (height is the cached dimension) and has the
codec decode each row directly into its slice.  The method is const: the
returned adapter state is the input state (be_image_png.cpp
lines 185-253). -/
def getRawData (img : PNGAdapter) (codec : List Nat → Nat × (Nat → List Nat)) :
    List Nat × PNGAdapter :=
  let rowbytes := (codec img.data).1
  let rows := (codec img.data).2
  let height := img.header.height
  let rawData := List.replicate (rowbytes * height) 0
  (writeRows rowbytes rows height rawData, img)

/-- Writing a row that fits inside the buffer preserves its length. -/
theorem writeRowAt_length (buf : List Nat) (off : Nat) (row : List Nat)
    (hfit : off + row.length ≤ buf.length) :
    (writeRowAt buf off row).length = buf.length := by
  simp [writeRowAt]
  omega

/-- Writing any prefix of the rows preserves the buffer length when every
row has the stride length and the rows written fit. -/
theorem writeRows_length (rowbytes : Nat) (rows : Nat → List Nat)
    (hrows : ∀ r, (rows r).length = rowbytes) :
    ∀ (n : Nat) (buf : List Nat), n * rowbytes ≤ buf.length →
      (writeRows rowbytes rows n buf).length = buf.length := by
  intro n
  induction n with
  | zero => intro buf _; rfl
  | succ n ih =>
      intro buf hle
      rw [Nat.succ_mul] at hle
      have hn : n * rowbytes ≤ buf.length := by omega
      have hlen := ih buf hn
      rw [writeRows, writeRowAt_length]
      · exact hlen
      · rw [hlen, hrows n]
        omega

/-- Claim C5: for an adapter whose image parses successfully (the codec
yields rows of the reported stride), the buffer returned by getRawData has
length exactly the post-transformation row stride times the cached image
height; the call leaves the adapter state unchanged, and a second call on
that state returns a byte-identical buffer. -/
theorem C5_getRawData_length_idempotent (img : PNGAdapter)
    (codec : List Nat → Nat × (Nat → List Nat))
    (hrows : ∀ r, ((codec img.data).2 r).length = (codec img.data).1) :
    (getRawData img codec).1.length =
      (codec img.data).1 * img.header.height ∧
    (getRawData img codec).2 = img ∧
    (getRawData (getRawData img codec).2 codec).1 = (getRawData img codec).1 := by
  refine ⟨?_, rfl, rfl⟩
  have := writeRows_length (codec img.data).1 (codec img.data).2 hrows
    img.header.height (List.replicate ((codec img.data).1 * img.header.height) 0)
    (by simp [Nat.mul_comm])
  simpa [getRawData] using this

/-- Witness for C5: a 2-row image at stride 3 with a constant-row codec
yields a 6-byte buffer and an unchanged adapter. -/
theorem C5_getRawData_length_idempotent_witness :
    (getRawData ⟨[1, 2], ⟨8, 3, 2, 1, 2, false, none⟩, "img"⟩
        (fun _ => (3, fun _ => [7, 7, 7]))).1.length = 3 * 2 ∧
    (getRawData ⟨[1, 2], ⟨8, 3, 2, 1, 2, false, none⟩, "img"⟩
        (fun _ => (3, fun _ => [7, 7, 7]))).2 =
      ⟨[1, 2], ⟨8, 3, 2, 1, 2, false, none⟩, "img"⟩ :=
  ⟨(C5_getRawData_length_idempotent ⟨[1, 2], ⟨8, 3, 2, 1, 2, false, none⟩, "img"⟩
      (fun _ => (3, fun _ => [7, 7, 7])) (fun _ => rfl)).1,
   (C5_getRawData_length_idempotent ⟨[1, 2], ⟨8, 3, 2, 1, 2, false, none⟩, "img"⟩
      (fun _ => (3, fun _ => [7, 7, 7])) (fun _ => rfl)).2.1⟩

/-! ### Error and warning callbacks (be_image_png.cpp lines 301-334) -/

/-- The Framework::Status severity values of the image framework. -/
inductive StatusType where
  | Debug
  | Warning
  | Error
deriving DecidableEq, Repr

/-- The Framework::Status payload handed to the adapter's status callback:
severity, codec message, and adapter identifier. -/
structure StatusEvent where
  type : StatusType
  message : String
  identifier : String
deriving DecidableEq, Repr

/-- The externally observable actions of the libpng callbacks, in order:
invoking the adapter's status callback, or raising StrategyError. -/
inductive CallbackAction where
  | notify (e : StatusEvent)
  | raiseStrategyError (msg : String)
deriving DecidableEq, Repr

/-- png_error_callback (be_image_png.cpp lines 301-319): when the error
pointer holds an adapter, notify its status callback with severity Error,
the codec message and the adapter identifier; in every case then throw
StrategyError with the codec message. -/
def png_error_callback (userData : Option PNGAdapter) (msg : String) :
    List CallbackAction :=
  (match userData with
   | some png =>
       [CallbackAction.notify ⟨StatusType.Error, msg, png.identifier⟩]
   | none => []) ++
  [CallbackAction.raiseStrategyError msg]

/-- png_warning_callback (be_image_png.cpp lines 321-334): when the error
pointer is lost, return silently; otherwise notify the adapter's status
callback with severity Error, the codec message and the adapter
identifier, and do not throw. -/
def png_warning_callback (userData : Option PNGAdapter) (msg : String) :
    List CallbackAction :=
  match userData with
  | some png => [CallbackAction.notify ⟨StatusType.Error, msg, png.identifier⟩]
  | none => []

/-- Claim C6: during construction or decode the error pointer holds the
adapter, so on a codec error the notification callback fires synchronously
with the codec message and the adapter identifier, followed by (even if the
callback does not throw) StrategyError carrying that same message; a codec
warning is forwarded to the notification callback and raises nothing. -/
theorem C6_error_warning_callbacks (png : PNGAdapter) (msg : String) :
    png_error_callback (some png) msg =
      [CallbackAction.notify ⟨StatusType.Error, msg, png.identifier⟩,
       CallbackAction.raiseStrategyError msg] ∧
    png_warning_callback (some png) msg =
      [CallbackAction.notify ⟨StatusType.Error, msg, png.identifier⟩] ∧
    (∀ m, CallbackAction.raiseStrategyError m ∉
      png_warning_callback (some png) msg) := by
  refine ⟨rfl, rfl, ?_⟩
  intro m hm
  simp [png_warning_callback] at hm

/-- Witness for C6 at a concrete adapter and message: the error callback
notifies then raises, and the warning callback never raises. -/
theorem C6_error_warning_callbacks_witness :
    png_error_callback (some ⟨[], ⟨8, 1, 0, 1, 1, false, none⟩, "img"⟩) "oops" =
      [CallbackAction.notify ⟨StatusType.Error, "oops", "img"⟩,
       CallbackAction.raiseStrategyError "oops"] ∧
    CallbackAction.raiseStrategyError "oops" ∉
      png_warning_callback (some ⟨[], ⟨8, 1, 0, 1, 1, false, none⟩, "img"⟩)
        "oops" :=
  ⟨(C6_error_warning_callbacks ⟨[], ⟨8, 1, 0, 1, 1, false, none⟩, "img"⟩
      "oops").1,
   (C6_error_warning_callbacks ⟨[], ⟨8, 1, 0, 1, 1, false, none⟩, "img"⟩
      "oops").2.2 "oops"⟩

/-- Claim C10: a forwarded codec warning carries the Error severity, which
is indistinguishable by severity from a fatal error; and when the adapter
back-pointer is unavailable, a warning is silently dropped while an error
still raises StrategyError. -/
theorem C10_warning_severity (png : PNGAdapter) (msg : String) :
    (∀ e, CallbackAction.notify e ∈ png_warning_callback (some png) msg →
        e.type = StatusType.Error) ∧
    (∀ e, CallbackAction.notify e ∈ png_error_callback (some png) msg →
        e.type = StatusType.Error) ∧
    png_warning_callback none msg = [] ∧
    png_error_callback none msg = [CallbackAction.raiseStrategyError msg] := by
  refine ⟨?_, ?_, rfl, rfl⟩
  · intro e he
    simp [png_warning_callback] at he
    rw [he]
  · intro e he
    simp [png_error_callback] at he
    rw [he]

/-- Witness for C10: at a concrete adapter and message, the forwarded
warning event has severity Error and the null-pointer cases behave as
stated. -/
theorem C10_warning_severity_witness :
    (StatusEvent.mk StatusType.Error "bad chunk" "img").type =
      StatusType.Error ∧
    png_warning_callback none "bad chunk" = [] ∧
    png_error_callback none "bad chunk" =
      [CallbackAction.raiseStrategyError "bad chunk"] :=
  ⟨(C10_warning_severity ⟨[], ⟨8, 1, 0, 1, 1, false, none⟩, "img"⟩
        "bad chunk").1
      ⟨StatusType.Error, "bad chunk", "img"⟩ (by simp [png_warning_callback]),
   (C10_warning_severity ⟨[], ⟨8, 1, 0, 1, 1, false, none⟩, "img"⟩
        "bad chunk").2.2.1,
   (C10_warning_severity ⟨[], ⟨8, 1, 0, 1, 1, false, none⟩, "img"⟩
        "bad chunk").2.2.2⟩

/-! ### LogSheet and LogCabinet (be_io_logcabinet.h) -/

/-- IO::LogSheet state: the entry counter `_entryNumber`, the pending
in-memory entry buffer (the ostringstream contents), the backing file as a
list of numbered entries, and the `_autoSync` flag. -/
structure LogSheet where
  entryNumber : Nat
  pending : String
  file : List (Nat × String)
  autoSync : Bool
deriving DecidableEq, Repr

/-- A freshly constructed LogSheet: counter zero, empty pending buffer,
empty backing file. -/
def LogSheet.fresh : LogSheet := ⟨0, "", [], false⟩

/-- Modelled from the spec: the implementation of IO::LogSheet::write is not
in the sources — be_io_logcabinet.h lines 74-88 only declare it.  Per that
declaration and the spec, write appends the text as a new numbered entry
directly to the file (entry number prefix, then the text) and increments
the entry counter, without affecting the current pending entry buffer.
Entries are numbered 1-based here: the k-th entry written to a fresh sheet
carries prefix k. -/
def LogSheet.write (s : LogSheet) (entry : String) : LogSheet :=
  { s with
    entryNumber := s.entryNumber + 1,
    file := s.file ++ [(s.entryNumber + 1, entry)] }

/-- Repeated LogSheet.write over a list of entry texts, in order. -/
def LogSheet.writeAll (s : LogSheet) : List String → LogSheet
  | [] => s
  | t :: ts => LogSheet.writeAll (s.write t) ts

/-- The numbered entries that writing `texts` should append when the entry
counter starts at `start`. -/
def numberEntries (start : Nat) : List String → List (Nat × String)
  | [] => []
  | t :: ts => (start + 1, t) :: numberEntries (start + 1) ts

theorem numberEntries_length (start : Nat) (texts : List String) :
    (numberEntries start texts).length = texts.length := by
  induction texts generalizing start with
  | nil => rfl
  | cons t ts ih => simp [numberEntries, ih]

theorem numberEntries_get? (texts : List String) :
    ∀ (start i : Nat),
      (numberEntries start texts).get? i =
        (texts.get? i).map (fun t => (start + i + 1, t)) := by
  induction texts with
  | nil => intro start i; cases i <;> rfl
  | cons t ts ih =>
      intro start i
      cases i with
      | zero => rfl
      | succ j =>
          have h1 := ih (start + 1) j
          show (numberEntries (start + 1) ts).get? j =
            (ts.get? j).map (fun x => (start + (j + 1) + 1, x))
          rw [h1]
          cases hts : ts.get? j with
          | none => rfl
          | some v =>
              have harith : start + 1 + j + 1 = start + (j + 1) + 1 := by omega
              simp [harith]

theorem writeAll_spec (texts : List String) :
    ∀ s : LogSheet,
      (LogSheet.writeAll s texts).entryNumber = s.entryNumber + texts.length ∧
      (LogSheet.writeAll s texts).pending = s.pending ∧
      (LogSheet.writeAll s texts).file =
        s.file ++ numberEntries s.entryNumber texts := by
  induction texts with
  | nil => intro s; simp [LogSheet.writeAll, numberEntries]
  | cons t ts ih =>
      intro s
      have h := ih (s.write t)
      refine ⟨?_, ?_, ?_⟩
      · rw [LogSheet.writeAll, h.1]
        simp [LogSheet.write]
        omega
      · rw [LogSheet.writeAll, h.2.1]
        simp [LogSheet.write]
      · rw [LogSheet.writeAll, h.2.2]
        simp [LogSheet.write, numberEntries]


/-- Claim C8: each write appends one numbered entry (current counter plus
one as prefix, then the text) and increments the counter, leaving the
pending buffer unchanged; after writing N texts on a fresh sheet the
counter is N, the file holds N entries, and the i-th entry (0-based) is
the i-th text prefixed with sequence number i+1. -/
theorem C8_logsheet_write (texts : List String) :
    (∀ (s : LogSheet) (t : String),
      (s.write t).entryNumber = s.entryNumber + 1 ∧
      (s.write t).file = s.file ++ [(s.entryNumber + 1, t)] ∧
      (s.write t).pending = s.pending) ∧
    (LogSheet.fresh.writeAll texts).entryNumber = texts.length ∧
    (LogSheet.fresh.writeAll texts).pending = "" ∧
    (LogSheet.fresh.writeAll texts).file.length = texts.length ∧
    (∀ i : Nat, (LogSheet.fresh.writeAll texts).file.get? i =
      (texts.get? i).map (fun t => (i + 1, t))) := by
  have h := writeAll_spec texts LogSheet.fresh
  refine ⟨fun s t => ⟨rfl, rfl, rfl⟩, ?_, ?_, ?_, ?_⟩
  · rw [h.1]
    simp [LogSheet.fresh]
  · rw [h.2.1]
    rfl
  · rw [h.2.2]
    simp [LogSheet.fresh, numberEntries_length]
  · intro i
    rw [h.2.2]
    show (numberEntries 0 texts).get? i =
      (texts.get? i).map (fun t => (i + 1, t))
    simpa using numberEntries_get? texts 0 i

/-- Witness for C8 at a concrete run: after writing two texts on a fresh
sheet the counter is 2 and the first file entry is numbered 1. -/
theorem C8_logsheet_write_witness :
    (LogSheet.fresh.writeAll ["a", "b"]).entryNumber = (["a", "b"] : List String).length ∧
    (LogSheet.fresh.writeAll ["a", "b"]).file.get? 0 =
      ((["a", "b"] : List String).get? 0).map (fun t => (0 + 1, t)) :=
  ⟨(C8_logsheet_write ["a", "b"]).2.1,
   (C8_logsheet_write ["a", "b"]).2.2.2.2 0⟩

/-- The claim C8 model checked end to end at a concrete run: two writes on
a fresh sheet. -/
theorem C8_logsheet_write_concrete :
    LogSheet.fresh.writeAll ["a", "b"] = ⟨2, "", [(1, "a"), (2, "b")], false⟩ := by
  rfl

/-- A directory of existing object names, modelling the filesystem state
the log utilities consult. -/
def LogDirectory := List String

/-- Modelled from the spec: the implementation of the LogSheet constructor
is not in the sources — be_io_logcabinet.h lines 43-70 only declare that
creating a LogSheet whose name already exists in the target directory
throws Error::ObjectExists.  On failure the directory is unchanged; on
success the name is added. -/
def LogSheet.create (dir : List String) (name : String) :
    Except BEError Unit × List String :=
  if name ∈ dir then (Except.error BEError.ObjectExists, dir)
  else (Except.ok (), dir ++ [name])

/-- Modelled from the spec: the implementation of the open-existing
LogCabinet constructor is not in the sources — be_io_logcabinet.h
lines 184-207 only declare that opening a LogCabinet that does not exist
under the parent directory throws Error::ObjectDoesNotExist.  On failure
the parent directory is unchanged. -/
def LogCabinet.openCabinet (parentDir : List String) (name : String) :
    Except BEError Unit × List String :=
  if name ∈ parentDir then (Except.ok (), parentDir)
  else (Except.error BEError.ObjectDoesNotExist, parentDir)

/-- Claim C9: creating a LogSheet under a name already present fails with
ObjectExists, opening a missing LogCabinet fails with ObjectDoesNotExist,
and in both failure cases the on-disk state is unchanged. -/
theorem C9_logsheet_create_cabinet_open (dir : List String) (name : String) :
    (name ∈ dir →
      LogSheet.create dir name = (Except.error BEError.ObjectExists, dir)) ∧
    (name ∉ dir →
      LogCabinet.openCabinet dir name =
        (Except.error BEError.ObjectDoesNotExist, dir)) := by
  constructor
  · intro hmem
    simp [LogSheet.create, hmem]
  · intro hmem
    simp [LogCabinet.openCabinet, hmem]

/-- Witness for C9: a directory already holding "log1" rejects creating
"log1", and an empty parent directory rejects opening "cab". -/
theorem C9_logsheet_create_cabinet_open_witness :
    LogSheet.create ["log1"] "log1" =
      (Except.error BEError.ObjectExists, ["log1"]) ∧
    LogCabinet.openCabinet [] "cab" =
      (Except.error BEError.ObjectDoesNotExist, []) :=
  ⟨(C9_logsheet_create_cabinet_open ["log1"] "log1").1 (by simp),
   (C9_logsheet_create_cabinet_open [] "cab").2 (by simp)⟩

end LibBiomeval
